import Mathlib

/-!
Verification development for the diplodocus e-book narration app.

Shallow embedding of the reader view (reader.js), the library card module
(library.js), and the Dexie schema (src/js/db.js), together with
spec-modelled definitions for the parts of the repository whose sources are
not available here (the TTS engine in tts.js, the storage module, and the
sentence tokenizer), each marked `Modelled from the spec:` in its doc
comment.
-/

namespace Diplodocus

/-- Engine / render state labels used by the TTSEngine and the reader view:
idle, loading, stopped, playing, paused, error. -/
inductive TState where
  | idle
  | loading
  | stopped
  | playing
  | paused
  | error
deriving DecidableEq, Repr

/-- Payload consumed by the reader's render callback, mirroring the
destructuring pattern of `_render` in reader.js line 101:
`{ state, chapIdx, sentIdx, totalChapters, chapterTitle, currentSentence }`. -/
structure RenderPayload where
  state : TState
  chapIdx : Nat
  sentIdx : Nat
  totalChapters : Nat
  chapterTitle : String
  currentSentence : String
deriving DecidableEq, Repr

/-- Observable output of one `_render` call: the text contents, the
play/pause icon choice, the four transport-control disabled flags and the
dataset state.  The CSS width of the progress fill (a floating-point
percentage string) is not modelled. -/
structure RenderOutput where
  chapterText : String
  sentenceText : String
  labelText : String
  playIconIsPause : Bool
  playDisabled : Bool
  stopDisabled : Bool
  rewindDisabled : Bool
  forwardDisabled : Bool
  dataState : TState
deriving DecidableEq, Repr

/-- Embedding of `_render` (reader.js lines 101-135).  JS `||` on strings
returns the second operand when the first is empty; `!currentSentence` is
true exactly when the string is empty. -/
def render (p : RenderPayload) : RenderOutput :=
  let noChapters := p.totalChapters = 0 ∧ p.state ≠ TState.loading
  let chapterText :=
    if noChapters then "No chapters found"
    else if p.chapterTitle = "" then "—" else p.chapterTitle
  let sentenceText :=
    if noChapters then "Remove and re-import this book to enable playback."
    else if p.state = TState.loading then "Loading…"
    else if p.state = TState.stopped ∧ p.currentSentence = "" then "Press play to start."
    else p.currentSentence
  let chNum := p.chapIdx + 1
  let labelText :=
    if 0 < p.totalChapters then
      "Chapter " ++ toString chNum ++ " of " ++ toString p.totalChapters
    else ""
  let isPlaying := p.state = TState.playing
  let ready := p.state ≠ TState.idle ∧ p.state ≠ TState.loading ∧ 0 < p.totalChapters
  { chapterText := chapterText
    sentenceText := sentenceText
    labelText := labelText
    playIconIsPause := decide isPlaying
    playDisabled := decide ¬ready
    stopDisabled := decide (¬ready ∨ p.state = TState.stopped)
    rewindDisabled := decide ¬ready
    forwardDisabled := decide ¬ready
    dataState := p.state }

/-- Field names of the payload the spec claims the render notification
carries (spec section 4.7). -/
def claimedRenderFields : List String :=
  ["state", "chapterIndex", "sentenceIndex", "totalChapters", "chapterTitle",
   "currentSentenceText"]

/-- Field names actually consumed by `_render`, transcribed from its
destructuring pattern at reader.js line 101. -/
def renderConsumedFields : List String :=
  ["state", "chapIdx", "sentIdx", "totalChapters", "chapterTitle",
   "currentSentence"]

/-- Field names of the payload literal passed to `_render` at reader.js
line 70 (the loading-state render in openReader). -/
def loadingRenderFields : List String :=
  ["state", "chapIdx", "sentIdx", "totalChapters", "chapterTitle",
   "currentSentence"]

/-- The payload literal passed to `_render` at reader.js line 70. -/
def loadingPayload : RenderPayload :=
  { state := TState.loading, chapIdx := 0, sentIdx := 0, totalChapters := 0,
    chapterTitle := "", currentSentence := "" }

/-! Library data model: the Dexie stores of src/js/db.js (version 2), plus
the stored raw files and persisted playback positions owned by the storage
module. -/

/-- A record of the `books` store (db.js: `++id, title, author, filename,
fileSize, addedAt`; non-indexed: coverBlob, chapterCount). -/
structure BookRec where
  id : Nat
  title : String
  author : String
  chapterCount : Nat
deriving DecidableEq, Repr

/-- A record of the `chapters` store (db.js: `++id, bookId, spineIndex`;
non-indexed: title, href). -/
structure ChapterRec where
  id : Nat
  bookId : Nat
  spineIndex : Nat
  title : String
  href : String
deriving DecidableEq, Repr

/-- A persisted playback position (spec section 3: one row per book). -/
structure PosRec where
  bookId : Nat
  chapterIndex : Nat
  sentenceIndex : Nat
  updatedAt : Nat
deriving DecidableEq, Repr

/-- The persistent state visible to the removal flow: the two Dexie stores
plus the stored raw files and playback positions owned by the storage
module (files keyed by book id). -/
structure AppDb where
  books : List BookRec
  chapters : List ChapterRec
  files : List Nat
  positions : List PosRec
deriving DecidableEq, Repr

/-- `db.books.delete(book.id)` (library.js, inside confirmRemove). -/
def dbBooksDelete (s : AppDb) (bookId : Nat) : AppDb :=
  { s with books := s.books.filter (fun b => b.id != bookId) }

/-- `db.chapters.where('bookId').equals(book.id).delete()` (library.js,
inside confirmRemove). -/
def dbChaptersDeleteWhereBookId (s : AppDb) (bookId : Nat) : AppDb :=
  { s with chapters := s.chapters.filter (fun c => c.bookId != bookId) }

/-- Modelled from the spec: `deleteBook(bookId)` imported from the storage
module, whose source is not under src/.  Spec section 6: "deleteBook(bookId)
cascades chapters and position (owned by the external store)" — it deletes
the stored raw file for the book and the book's persisted playback
position. -/
def storageDeleteBook (s : AppDb) (bookId : Nat) : AppDb :=
  { s with files := s.files.filter (fun f => f != bookId),
           positions := s.positions.filter (fun p => p.bookId != bookId) }

/-- Combined effect on persistent state of the three awaited deletions in
`confirmRemove` (library.js lines 265-269) when all three succeed. -/
def confirmRemoveDeletes (s : AppDb) (bookId : Nat) : AppDb :=
  storageDeleteBook (dbChaptersDeleteWhereBookId (dbBooksDelete s bookId) bookId) bookId

/-- Toast kinds used by showToast in library.js. -/
inductive ToastKind where
  | success
  | error
deriving DecidableEq, Repr

/-- UI outcome of a confirmed removal: whether the card was removed from the
DOM, whether its object URL was revoked, and which toast was shown. -/
structure RemoveOutcome where
  cardRemoved : Bool
  urlRevoked : Bool
  toastMsg : String
  toastKind : ToastKind
deriving DecidableEq, Repr

/-- `Promise.all` over the three deletions: resolves only when all three
resolve, rejects with the first listed rejection otherwise. -/
def promiseAll3 (r1 r2 r3 : Except String Unit) : Except String Unit :=
  match r1 with
  | Except.error m => Except.error m
  | Except.ok _ =>
    match r2 with
    | Except.error m => Except.error m
    | Except.ok _ =>
      match r3 with
      | Except.error m => Except.error m
      | Except.ok _ => Except.ok ()

/-- Embedding of `confirmRemove` (library.js lines 261-282) as a function of
the confirmation answer, whether an object URL is registered for the book,
and the results of the three deletions.  Returns none when the confirm
dialog was declined (early return), otherwise the resulting UI outcome:
try-branch on success (revoke URL if present, remove card, success toast),
catch-branch on any rejection (error toast, card untouched). -/
def confirmRemoveFlow (confirmed : Bool) (hasUrl : Bool)
    (r1 r2 r3 : Except String Unit) : Option RemoveOutcome :=
  if !confirmed then none
  else
    match promiseAll3 r1 r2 r3 with
    | Except.ok _ =>
      some { cardRemoved := true, urlRevoked := hasUrl,
             toastMsg := "Book removed from library", toastKind := ToastKind.success }
    | Except.error _ =>
      some { cardRemoved := false, urlRevoked := false,
             toastMsg := "Failed to remove book", toastKind := ToastKind.error }

/-! Sentence tokenizer.  The tokenizer's source is not under src/; it is
modelled from spec section 4.5. -/

/-- Terminal sentence punctuation: `.`, `?`, `!`. -/
def isTerminalPunct (c : Char) : Bool :=
  c = '.' || c = '?' || c = '!'

/-- Whitespace for the tokenizer's purposes. -/
def isWsChar (c : Char) : Bool :=
  c = ' ' || c = '\n' || c = '\t' || c = '\r'

/-- Modelled from the spec: the fixed abbreviation set of section 4.5
("Mr", "Mrs", "Dr", "St", "vs", "etc", "e.g", "i.e"); single initials are
handled separately by `isSingleInitial`. -/
def abbreviationTokens : List (List Char) :=
  ["Mr", "Mrs", "Dr", "St", "vs", "etc", "e.g", "i.e"].map String.data

/-- A single initial like "A" (the token preceding the period in "A."). -/
def isSingleInitial (w : List Char) : Bool :=
  match w with
  | [c] => c.isUpper
  | _ => false

/-- The word immediately preceding the current position, given the reversed
preceding characters: the maximal run of non-whitespace characters, restored
to reading order. -/
def lastWordOfRev (prevRev : List Char) : List Char :=
  (prevRev.takeWhile (fun c => !isWsChar c)).reverse

/-- Whether a split at a `.` is suppressed because the preceding word is a
known abbreviation token or a single initial (spec section 4.5). -/
def suppressDotSplit (prevRev : List Char) : Bool :=
  let w := lastWordOfRev prevRev
  abbreviationTokens.contains w || isSingleInitial w

/-- Strip leading and trailing whitespace from a character list. -/
def trimWsChars (l : List Char) : List Char :=
  ((l.dropWhile isWsChar).reverse.dropWhile isWsChar).reverse

/-- Emit the buffered sentence (buffer held in reverse) after trimming;
whitespace-only buffers emit nothing. -/
def emitSentence (bufRev : List Char) (acc : List String) : List String :=
  let t := trimWsChars bufRev.reverse
  if t.isEmpty then acc else acc ++ [String.mk t]

/-- Whether the most recently buffered character is terminal punctuation
(used to recognise the final character of a 2+ punctuation run). -/
def headIsTerminal (l : List Char) : Bool :=
  match l with
  | [] => false
  | c :: _ => isTerminalPunct c

/-- Modelled from the spec: the tokenizer scan of section 4.5.  `bufRev` is
the current sentence buffer in reverse.  A terminal punctuation character
splits only when followed by whitespace or end-of-text; a character of a 2+
punctuation run never splits except after the final character of the run; a
`.` whose split position follows a known abbreviation or single initial does
not split.  The decimal-number suppression ("a digit on both sides of a .",
e.g. "3.14") is subsumed by the followed-by-whitespace-or-end-of-text
condition, since such a `.` is followed by a digit. -/
def tokenizeAux : List Char → List Char → List String → List String
  | [], bufRev, acc => emitSentence bufRev acc
  | c :: rest, bufRev, acc =>
    if isTerminalPunct c then
      match rest with
      | [] => emitSentence (c :: bufRev) acc
      | c2 :: _ =>
        if isTerminalPunct c2 then
          tokenizeAux rest (c :: bufRev) acc
        else if isWsChar c2 then
          if headIsTerminal bufRev then
            tokenizeAux rest [] (emitSentence (c :: bufRev) acc)
          else if c = '.' && suppressDotSplit bufRev then
            tokenizeAux rest (c :: bufRev) acc
          else
            tokenizeAux rest [] (emitSentence (c :: bufRev) acc)
        else
          tokenizeAux rest (c :: bufRev) acc
    else
      tokenizeAux rest (c :: bufRev) acc

/-- Modelled from the spec: `tokenize` splits clean text into an ordered
sequence of non-empty trimmed sentence strings (spec section 4.5). -/
def tokenize (s : String) : List String :=
  tokenizeAux s.data [] []

/-! Reader module engine lifecycle (reader.js module state, openReader,
closeReader, _destroyEngine).  `liveEngines` and `nextEngineId` are ghost
instrumentation: each `new TTSEngine(...)` adds a fresh id to `liveEngines`,
each `engine?.destroy()` removes the current engine's id, so the claim
"at most one live engine instance" is `liveEngines.length ≤ 1`. -/

/-- Module-level engine state of reader.js: the `engine` variable (id of the
current engine, if any) plus the ghost live-instance multiset. -/
structure ReaderModuleState where
  engine : Option Nat
  liveEngines : List Nat
  nextEngineId : Nat
deriving DecidableEq, Repr

/-- Embedding of `_destroyEngine` (reader.js lines 179-183):
`engine?.destroy(); engine = null` — destroys the current engine instance
(removing it from the ghost live set) and nulls the variable. -/
def destroyEngineOp (m : ReaderModuleState) : ReaderModuleState :=
  match m.engine with
  | some e => { m with engine := none,
                       liveEngines := m.liveEngines.filter (fun x => x != e) }
  | none => m

/-- Engine-lifecycle effect of `openReader` (reader.js lines 39-84): first
`_destroyEngine()`, then an early return if speech synthesis is unsupported,
otherwise `engine = new TTSEngine(_render)` constructs one fresh engine. -/
def openReaderEngineOps (ttsSupported : Bool) (m : ReaderModuleState) :
    ReaderModuleState :=
  let m1 := destroyEngineOp m
  if !ttsSupported then m1
  else
    { m1 with engine := some m1.nextEngineId,
              liveEngines := m1.liveEngines ++ [m1.nextEngineId],
              nextEngineId := m1.nextEngineId + 1 }

/-- Engine-lifecycle effect of `closeReader` (reader.js lines 87-97):
`engine?.stop()` (no lifecycle change) then `_destroyEngine()`. -/
def closeReaderEngineOps (m : ReaderModuleState) : ReaderModuleState :=
  destroyEngineOp m

/-- Invariant tying the `engine` variable to the ghost live set: the live
instances are exactly the engine the variable points at. -/
def ReaderEngineInv (m : ReaderModuleState) : Prop :=
  (∀ e, m.engine = some e → m.liveEngines = [e]) ∧
  (m.engine = none → m.liveEngines = [])

/-- Initial module state of reader.js: `let engine = null`. -/
def initialReaderModule : ReaderModuleState :=
  { engine := none, liveEngines := [], nextEngineId := 0 }

/-! Chapters store operations.  db.js (version 2) declares the `chapters`
store with indexes `bookId` and `spineIndex` ("indexed for ordered chapter
queries per book"); the writer (Chapter Assembler) and reader
(`getChapters`) live in modules not under src/ and are modelled from spec
sections 4.6 and 6. -/

/-- Spine-index order on chapter records. -/
def spineLE (a b : ChapterRec) : Prop :=
  a.spineIndex ≤ b.spineIndex

instance : DecidableRel spineLE :=
  fun a b => Nat.decLe a.spineIndex b.spineIndex

instance : IsTotal ChapterRec spineLE :=
  ⟨fun a b => Nat.le_total a.spineIndex b.spineIndex⟩

instance : IsTrans ChapterRec spineLE :=
  ⟨fun _ _ _ => Nat.le_trans⟩

/-- Modelled from the spec: `putChapters(bookId, orderedChapterList)` of
spec sections 4.6 and 6 (the Chapter Assembler's writer is not under src/).
One Chapter record is produced per narratable spine item in spine order, so
the i-th list element receives spine index i; the store is keyed by book id,
so existing records of the book are replaced; ids are auto-incremented from
`nextId`.  Each input pair is (title, href). -/
def putChapters (store : List ChapterRec) (nextId : Nat) (bookId : Nat)
    (chs : List (String × String)) : List ChapterRec :=
  store.filter (fun c => c.bookId != bookId) ++
    chs.enum.map (fun p =>
      { id := nextId + p.1, bookId := bookId, spineIndex := p.1,
        title := p.2.1, href := p.2.2 })

/-- Modelled from the spec: `getChapters(bookId)` of spec section 6 (source
not under src/) — "keyed by book id, returns in spine-index order";
db.js indexes `bookId` and `spineIndex` for exactly this query. -/
def getChapters (store : List ChapterRec) (bookId : Nat) : List ChapterRec :=
  (store.filter (fun c => c.bookId == bookId)).insertionSort spineLE

/-! TTS engine calls issued by closeReader. -/

/-- The engine methods closeReader invokes. -/
inductive EngineCall where
  | stop
  | destroy
deriving DecidableEq, Repr

/-- Engine calls made by `closeReader` (reader.js lines 87-97):
`engine?.stop()` followed by `_destroyEngine()` which runs
`engine?.destroy()`.  With no live engine neither call happens. -/
def closeReaderEngineCalls (engineLive : Bool) : List EngineCall :=
  if engineLive then [EngineCall.stop, EngineCall.destroy] else []

/-- Modelled from the spec: the TTSEngine's position-relevant state (tts.js
is not under src/).  Spec section 4.7: the engine keeps a (chapter,
sentence) cursor and persists positions to the store. -/
structure EngineState where
  st : TState
  chapIdx : Nat
  sentIdx : Nat
  persisted : Option (Nat × Nat)
deriving DecidableEq, Repr

/-- Modelled from the spec: `stop()` — "playing/paused → stopped; cancels
in-flight request; persists current cursor immediately" (section 4.7). -/
def engineStop (e : EngineState) : EngineState :=
  { e with st := TState.stopped, persisted := some (e.chapIdx, e.sentIdx) }

/-- Modelled from the spec: `destroy()` — "any → idle; cancels outstanding
requests, releases all resources, does not alter persisted position beyond
the last explicit persist" (section 4.7). -/
def engineDestroy (e : EngineState) : EngineState :=
  { e with st := TState.idle }

/-- Run a sequence of engine calls against an engine state. -/
def runEngineCalls (e : EngineState) : List EngineCall → EngineState
  | [] => e
  | EngineCall.stop :: rest => runEngineCalls (engineStop e) rest
  | EngineCall.destroy :: rest => runEngineCalls (engineDestroy e) rest

/-! Event trace of openReader. -/

/-- Observable events of `openReader` (reader.js lines 39-84).  DOM-cosmetic
steps (header title, cover art, view visibility, keyboard listener
registration) are omitted. -/
inductive ReaderEvent where
  | alertNoTts
  | renderCall (p : RenderPayload)
  | engineOpen (bookId : Nat)
  | showLoadError (chapterText : String) (sentenceText : String)
deriving DecidableEq, Repr

/-- Event trace of `openReader` (reader.js lines 39-84): after the
unsupported-speech early return, the loading render at line 70 happens
before the engine is constructed and `engine.open(book.id)` is awaited
(line 79); the catch branch (lines 80-83) writes "Failed to load book" and
the error message to the chapter/sentence elements. -/
def openReaderTrace (ttsSupported : Bool) (bookId : Nat)
    (openResult : Except String Unit) : List ReaderEvent :=
  if !ttsSupported then [ReaderEvent.alertNoTts]
  else
    [ReaderEvent.renderCall loadingPayload, ReaderEvent.engineOpen bookId] ++
      (match openResult with
       | Except.ok _ => []
       | Except.error msg =>
         [ReaderEvent.showLoadError "Failed to load book" msg])

/-! Play control handlers. -/

/-- Transport command sent to the engine by the play control. -/
inductive TransportCmd where
  | pause
  | play
deriving DecidableEq, Repr

/-- Embedding of the btnPlay click handler (reader.js lines 141-145):
`if (!engine) return; if (lastState === 'playing') engine.pause(); else
engine.play();`. -/
def btnPlayClickCmd (engineLive : Bool) (lastState : TState) :
    Option TransportCmd :=
  if !engineLive then none
  else if lastState = TState.playing then some TransportCmd.pause
  else some TransportCmd.play

/-- Embedding of the Space branch of `_onKeyDown` (reader.js lines
158-162): `if (lastState === 'playing') engine?.pause(); else
engine?.play();` — the optional chaining makes both calls no-ops without a
live engine. -/
def spaceKeyCmd (engineLive : Bool) (lastState : TState) :
    Option TransportCmd :=
  if lastState = TState.playing then
    (if engineLive then some TransportCmd.pause else none)
  else
    (if engineLive then some TransportCmd.play else none)

/-! Helper lemmas. -/

/-- Filtering for key `b` after filtering key `b` away yields nothing. -/
theorem filter_beq_filter_bne {α β : Type} [BEq β] [LawfulBEq β]
    (f : α → β) (b : β) (l : List α) :
    (l.filter (fun a => f a != b)).filter (fun a => f a == b) = [] := by
  rw [List.filter_filter]
  refine List.filter_eq_nil_iff.mpr (fun a _ => ?_)
  by_cases h : f a = b <;> simp [h]

/-- An element filtered away is no longer contained. -/
theorem not_contains_filter_bne {β : Type} [BEq β] [LawfulBEq β]
    (b : β) (l : List β) :
    (l.filter (fun a => a != b)).contains b = false := by
  induction l with
  | nil => rfl
  | cons x xs ih =>
    by_cases h : x = b
    · simp [List.filter_cons, h, ih]
    · simp [List.filter_cons, h, List.contains_cons, ih,
        show (b == x) = false by simp; exact fun hb => h hb.symm]

/-- Destroying the current engine empties the ghost live set. -/
theorem destroyEngineOp_live (m : ReaderModuleState) (h : ReaderEngineInv m) :
    (destroyEngineOp m).liveEngines = [] ∧ (destroyEngineOp m).engine = none := by
  rcases h with ⟨h1, h2⟩
  cases he : m.engine with
  | none => simp [destroyEngineOp, he, h2 he]
  | some e => simp [destroyEngineOp, he, h1 e he]

/-- The initial reader module state satisfies the engine invariant. -/
theorem initialReaderModule_inv : ReaderEngineInv initialReaderModule := by
  refine ⟨fun e h => ?_, fun _ => rfl⟩
  exact nomatch h

/-! Claim theorems. -/

/-- C1 counterexample: the claim names the payload fields
{state, chapterIndex, sentenceIndex, totalChapters, chapterTitle,
currentSentenceText}, but the payload the reader's render function consumes
(reader.js line 101) and the payload literal built in openReader
(reader.js line 70) use the keys chapIdx, sentIdx and currentSentence
instead of chapterIndex, sentenceIndex and currentSentenceText, so the
claimed field set is not the consumed field set. -/
theorem render_fields_counterexample :
    (claimedRenderFields == renderConsumedFields) = false ∧
    renderConsumedFields.contains "chapterIndex" = false ∧
    claimedRenderFields.contains "chapterIndex" = true ∧
    renderConsumedFields.contains "currentSentenceText" = false ∧
    loadingRenderFields.contains "sentenceIndex" = false := by
  refine ⟨rfl, ?_, ?_, ?_, ?_⟩ <;> rfl

/-- C1 (amended): the render notification payload carries exactly the
fields {state, chapIdx, sentIdx, totalChapters, chapterTitle,
currentSentence} — the payload literal passed to the render function at
reader.js line 70 has exactly the fields the render function's
destructuring pattern at line 101 consumes. -/
theorem render_fields_amended :
    loadingRenderFields = renderConsumedFields ∧
    renderConsumedFields =
      ["state", "chapIdx", "sentIdx", "totalChapters", "chapterTitle",
       "currentSentence"] :=
  ⟨rfl, rfl⟩

/-- C2: every render payload with totalChapters = 0 and a state other than
loading makes the reader display the chapter text "No chapters found" and
disable all four transport controls (play, stop, rewind, forward). -/
theorem render_no_chapters_disables_transport (p : RenderPayload)
    (h0 : p.totalChapters = 0) (hs : p.state ≠ TState.loading) :
    (render p).chapterText = "No chapters found" ∧
    (render p).playDisabled = true ∧
    (render p).stopDisabled = true ∧
    (render p).rewindDisabled = true ∧
    (render p).forwardDisabled = true := by
  have hn : p.totalChapters = 0 ∧ p.state ≠ TState.loading := ⟨h0, hs⟩
  have hr : ¬(p.state ≠ TState.idle ∧ p.state ≠ TState.loading ∧
      0 < p.totalChapters) := by
    rintro ⟨-, -, hlt⟩
    omega
  simp [render, hn, hr]

/-- C2 witness: the no-chapters render at a concrete stopped-state payload. -/
theorem render_no_chapters_disables_transport_witness :
    (render { state := TState.stopped, chapIdx := 0, sentIdx := 0,
              totalChapters := 0, chapterTitle := "",
              currentSentence := "" }).chapterText = "No chapters found" ∧
    (render { state := TState.stopped, chapIdx := 0, sentIdx := 0,
              totalChapters := 0, chapterTitle := "",
              currentSentence := "" }).playDisabled = true ∧
    (render { state := TState.stopped, chapIdx := 0, sentIdx := 0,
              totalChapters := 0, chapterTitle := "",
              currentSentence := "" }).stopDisabled = true ∧
    (render { state := TState.stopped, chapIdx := 0, sentIdx := 0,
              totalChapters := 0, chapterTitle := "",
              currentSentence := "" }).rewindDisabled = true ∧
    (render { state := TState.stopped, chapIdx := 0, sentIdx := 0,
              totalChapters := 0, chapterTitle := "",
              currentSentence := "" }).forwardDisabled = true :=
  render_no_chapters_disables_transport _ rfl (by decide)

/-- C3: a confirmed removal deletes the book record, every chapter record
whose bookId equals the book's id, the stored raw file, and the book's
persisted playback position. -/
theorem confirmRemove_cascades (s : AppDb) (b : Nat) :
    (confirmRemoveDeletes s b).books.filter (fun r => r.id == b) = [] ∧
    (confirmRemoveDeletes s b).chapters.filter (fun c => c.bookId == b) = [] ∧
    (confirmRemoveDeletes s b).files.contains b = false ∧
    (confirmRemoveDeletes s b).positions.filter (fun p => p.bookId == b) = [] := by
  refine ⟨?_, ?_, ?_, ?_⟩
  · exact filter_beq_filter_bne (fun r : BookRec => r.id) b s.books
  · exact filter_beq_filter_bne (fun c : ChapterRec => c.bookId) b s.chapters
  · exact not_contains_filter_bne b s.files
  · exact filter_beq_filter_bne (fun p : PosRec => p.bookId) b s.positions

/-- C4: tokenizing "Dr. Smith arrived at 3.14pm. He left." yields exactly
two sentences, with no split at "Dr." or inside "3.14", and tokenizing
"Wait... really?! Yes." yields exactly three sentences, split only after
the ellipsis run and after "?!", never inside either punctuation run. -/
theorem tokenize_spec_examples :
    tokenize "Dr. Smith arrived at 3.14pm. He left." =
      ["Dr. Smith arrived at 3.14pm.", "He left."] ∧
    (tokenize "Dr. Smith arrived at 3.14pm. He left.").length = 2 ∧
    tokenize "Wait... really?! Yes." = ["Wait...", "really?!", "Yes."] ∧
    (tokenize "Wait... really?! Yes.").length = 3 :=
  ⟨rfl, rfl, rfl, rfl⟩

/-- C5: at every point there is at most one live TTSEngine instance —
openReader destroys any existing engine before constructing a new one and
closeReader destroys the current engine, so under the module invariant the
ghost live-instance set never holds more than one engine, and both
operations preserve the invariant. -/
theorem at_most_one_live_engine (m : ReaderModuleState)
    (h : ReaderEngineInv m) (b : Bool) :
    ReaderEngineInv (openReaderEngineOps b m) ∧
    ReaderEngineInv (closeReaderEngineOps m) ∧
    (openReaderEngineOps b m).liveEngines.length ≤ 1 ∧
    (closeReaderEngineOps m).liveEngines.length ≤ 1 ∧
    m.liveEngines.length ≤ 1 := by
  obtain ⟨hl, he⟩ := destroyEngineOp_live m h
  have hlen : m.liveEngines.length ≤ 1 := by
    rcases h with ⟨h1, h2⟩
    cases hm : m.engine with
    | none => simp [h2 hm]
    | some e => simp [h1 e hm]
  have hdest : ReaderEngineInv (destroyEngineOp m) := by
    refine ⟨fun e hee => ?_, fun _ => hl⟩
    rw [he] at hee
    exact nomatch hee
  cases b with
  | false =>
    refine ⟨?_, hdest, ?_, ?_, hlen⟩
    · simpa [openReaderEngineOps] using hdest
    · simp [openReaderEngineOps, hl]
    · simp [closeReaderEngineOps, hl]
  | true =>
    refine ⟨⟨fun e hee => ?_, fun hee => ?_⟩, hdest, ?_, ?_, hlen⟩
    · simp only [openReaderEngineOps, Bool.not_true, Bool.false_eq_true,
        if_false] at hee ⊢
      simp only [Option.some.injEq] at hee
      simp [hl, hee]
    · exfalso
      simp [openReaderEngineOps] at hee
    · simp [openReaderEngineOps, hl]
    · simp [closeReaderEngineOps, hl]

/-- C5 witness: opening the reader from the initial module state leaves at
most one live engine and preserves the invariant. -/
theorem at_most_one_live_engine_witness :
    ReaderEngineInv (openReaderEngineOps true initialReaderModule) ∧
    (openReaderEngineOps true initialReaderModule).liveEngines.length ≤ 1 :=
  ⟨(at_most_one_live_engine initialReaderModule initialReaderModule_inv true).1,
   (at_most_one_live_engine initialReaderModule initialReaderModule_inv true).2.2.1⟩

/-- The chapter records of book `b` after `putChapters` are exactly the
freshly assembled records in list order. -/
theorem putChapters_filter (store : List ChapterRec) (n b : Nat)
    (chs : List (String × String)) :
    (putChapters store n b chs).filter (fun c => c.bookId == b) =
      chs.enum.map (fun p =>
        ({ id := n + p.1, bookId := b, spineIndex := p.1,
           title := p.2.1, href := p.2.2 } : ChapterRec)) := by
  unfold putChapters
  rw [List.filter_append,
    filter_beq_filter_bne (fun c : ChapterRec => c.bookId) b store,
    List.nil_append]
  refine List.filter_eq_self.mpr (fun c hc => ?_)
  simp only [List.mem_map] at hc
  obtain ⟨p, _, rfl⟩ := hc
  simp

/-- Mapping spine indexes over the freshly assembled records of
`putChapters` gives 0, 1, ..., n-1. -/
theorem putChapters_map_spine (n b : Nat) (chs : List (String × String)) :
    (chs.enum.map (fun p =>
        ({ id := n + p.1, bookId := b, spineIndex := p.1,
           title := p.2.1, href := p.2.2 } : ChapterRec))).map
      (fun c => c.spineIndex) = List.range chs.length := by
  rw [List.map_map]
  have hcomp : ((fun c : ChapterRec => c.spineIndex) ∘ (fun p : Nat × (String × String) =>
      ({ id := n + p.1, bookId := b, spineIndex := p.1,
         title := p.2.1, href := p.2.2 } : ChapterRec))) = Prod.fst := rfl
  rw [hcomp, List.enum_map_fst]

/-- The freshly assembled records of `putChapters` are sorted by spine
index. -/
theorem putChapters_new_sorted (n b : Nat) (chs : List (String × String)) :
    List.Sorted spineLE (chs.enum.map (fun p =>
      ({ id := n + p.1, bookId := b, spineIndex := p.1,
         title := p.2.1, href := p.2.2 } : ChapterRec))) := by
  rw [List.Sorted, List.pairwise_map]
  have h := List.pairwise_le_range chs.length
  rw [← List.enum_map_fst, List.pairwise_map] at h
  exact h

/-- C6: for every book the chapter records persisted by putChapters carry a
spine index unique within the book, and getChapters returns the book's
records in spine-index order (its output is sorted by spine index, and
after a putChapters the returned spine indexes are exactly 0..n-1 in
order). -/
theorem chapters_spine_order :
    (∀ (store : List ChapterRec) (b : Nat),
      List.Sorted spineLE (getChapters store b)) ∧
    (∀ (store : List ChapterRec) (n b : Nat) (chs : List (String × String)),
      List.Pairwise (fun a c => (a.spineIndex == c.spineIndex) = false)
        ((putChapters store n b chs).filter (fun c => c.bookId == b))) ∧
    (∀ (store : List ChapterRec) (n b : Nat) (chs : List (String × String)),
      (getChapters (putChapters store n b chs) b).map (fun c => c.spineIndex) =
        List.range chs.length) := by
  refine ⟨fun store b => List.sorted_insertionSort spineLE _, ?_, ?_⟩
  · intro store n b chs
    rw [putChapters_filter, List.pairwise_map]
    have h := List.pairwise_lt_range chs.length
    rw [← List.enum_map_fst, List.pairwise_map] at h
    exact h.imp (fun hlt => by simpa using Nat.ne_of_lt hlt)
  · intro store n b chs
    unfold getChapters
    rw [putChapters_filter, (putChapters_new_sorted n b chs).insertionSort_eq,
      putChapters_map_spine]

/-- C7: closeReader with a live engine invokes engine.stop() strictly
before engine.destroy(); stop persists the current cursor immediately, and
the subsequent destroy leaves the persisted position exactly as stop left
it. -/
theorem closeReader_stop_then_destroy (e : EngineState) :
    closeReaderEngineCalls true = [EngineCall.stop, EngineCall.destroy] ∧
    runEngineCalls e (closeReaderEngineCalls true) =
      engineDestroy (engineStop e) ∧
    (runEngineCalls e (closeReaderEngineCalls true)).persisted =
      some (e.chapIdx, e.sentIdx) ∧
    (engineDestroy (engineStop e)).persisted = (engineStop e).persisted :=
  ⟨rfl, rfl, rfl, rfl⟩

/-- C8: openReader renders the loading state with cursor (0,0) before
engine.open(bookId) is awaited (the loading render is the first trace event
and the engine open the second), and when engine.open rejects the trace
ends with the "Failed to load book" display instead of any further render. -/
theorem openReader_loading_before_open (b : Nat) (msg : String) :
    openReaderTrace true b (Except.ok ()) =
      [ReaderEvent.renderCall loadingPayload, ReaderEvent.engineOpen b] ∧
    openReaderTrace true b (Except.error msg) =
      [ReaderEvent.renderCall loadingPayload, ReaderEvent.engineOpen b,
       ReaderEvent.showLoadError "Failed to load book" msg] ∧
    loadingPayload.state = TState.loading ∧
    loadingPayload.chapIdx = 0 ∧
    loadingPayload.sentIdx = 0 :=
  ⟨rfl, rfl, rfl, rfl, rfl⟩

/-- C9: with a live engine, both the play-button click handler and the
Space-key handler send pause exactly when the last rendered state is
playing and play in every other last rendered state; without a live engine
neither sends anything. -/
theorem play_control_pause_iff_playing (s : TState) :
    (btnPlayClickCmd true s =
      if s = TState.playing then some TransportCmd.pause
      else some TransportCmd.play) ∧
    (btnPlayClickCmd true s = some TransportCmd.pause ↔ s = TState.playing) ∧
    (spaceKeyCmd true s = btnPlayClickCmd true s) ∧
    btnPlayClickCmd false s = none ∧
    spaceKeyCmd false s = none := by
  cases s <;> exact ⟨rfl, by decide, rfl, rfl, rfl⟩

/-- C9 witness: in the playing state the play control pauses. -/
theorem play_control_pause_iff_playing_witness :
    btnPlayClickCmd true TState.playing = some TransportCmd.pause :=
  (play_control_pause_iff_playing TState.playing).2.1.mpr rfl

/-- C10: for a confirmed removal, if any of the three deletions rejects the
card is not removed and the error toast is shown; the card is removed, and
the object URL revoked, only when all three deletions succeed. -/
theorem confirmRemove_error_handling (hasUrl : Bool)
    (r1 r2 r3 : Except String Unit) :
    ((r1.isOk && r2.isOk && r3.isOk) = false →
      confirmRemoveFlow true hasUrl r1 r2 r3 =
        some { cardRemoved := false, urlRevoked := false,
               toastMsg := "Failed to remove book",
               toastKind := ToastKind.error }) ∧
    ((r1.isOk && r2.isOk && r3.isOk) = true →
      confirmRemoveFlow true hasUrl r1 r2 r3 =
        some { cardRemoved := true, urlRevoked := hasUrl,
               toastMsg := "Book removed from library",
               toastKind := ToastKind.success }) ∧
    ((confirmRemoveFlow true hasUrl r1 r2 r3).map RemoveOutcome.cardRemoved =
        some true ↔ (r1.isOk && r2.isOk && r3.isOk) = true) ∧
    ((confirmRemoveFlow true hasUrl r1 r2 r3).map RemoveOutcome.urlRevoked =
        some true → (r1.isOk && r2.isOk && r3.isOk) = true) := by
  rcases r1 with m1 | u1 <;> rcases r2 with m2 | u2 <;> rcases r3 with m3 | u3 <;>
    simp [confirmRemoveFlow, promiseAll3, Except.isOk, Except.toBool]

/-- C10 witness: a rejected book-record deletion leaves the card in place
and shows the error toast. -/
theorem confirmRemove_error_handling_witness :
    confirmRemoveFlow true true (Except.error "write failed") (Except.ok ())
        (Except.ok ()) =
      some { cardRemoved := false, urlRevoked := false,
             toastMsg := "Failed to remove book",
             toastKind := ToastKind.error } :=
  (confirmRemove_error_handling true (Except.error "write failed")
    (Except.ok ()) (Except.ok ())).1 rfl

end Diplodocus
